import Mathlib

/-!
Verification of the authentication path of GittieLabs/nextjs-fastapi-auth.

The repository ships an example FastAPI application
(`examples/basic-nextjs-fastapi/backend/main.py`) and test fixtures
(`packages/fastapi/tests/conftest.py`).  The library itself
(`gittielabs_fastapi_auth`: `SupabaseAuthService`, `AuthUser`, `UserRole`)
is referenced by that code but its source is not part of this tree, so the
resolver and the data model are modelled from the specification
(spec.md §3, §4, §7); the example handlers and the test-token builder are
embedded directly from the source files.
-/

namespace AuthResolver

/-- Modelled from the spec: the error taxonomy of §7 for the missing
`gittielabs_fastapi_auth` library (`MissingHeader`, `MalformedHeader`,
`MalformedToken`, `InvalidSignature`, `TokenExpired`). -/
inductive AuthError where
  | MissingHeader
  | MalformedHeader
  | MalformedToken
  | InvalidSignature
  | TokenExpired
  deriving DecidableEq, Repr

/-- The literal prefix "Bearer " (capital B, single trailing space),
as a character list. -/
def bearerPrefix : List Char := ['B', 'e', 'a', 'r', 'e', 'r', ' ']

/-- Modelled from the spec: `extract_token_from_header` of the missing
`SupabaseAuthService` (spec.md §4.1).  The header must be present and begin
with the literal prefix "Bearer " (case-sensitive, single space); fails with
`MissingHeader` when the header is absent or empty, with `MalformedHeader`
when the prefix is missing, and otherwise returns the substring after the
prefix unmodified.  Strings are embedded as character lists. -/
def extract_token_from_header (header : Option (List Char)) :
    Except AuthError (List Char) :=
  match header with
  | none => .error .MissingHeader
  | some h =>
    if h = [] then .error .MissingHeader
    else if bearerPrefix.isPrefixOf h then .ok (h.drop bearerPrefix.length)
    else .error .MalformedHeader

/-- Modelled from the spec: `UserRole`, the closed enumeration
{member, admin, owner} of the missing `gittielabs_fastapi_auth.models`
(spec.md §3). -/
inductive UserRole where
  | member
  | admin
  | owner
  deriving DecidableEq, Repr

/-- The string value carried by each role (as `UserRole.ADMIN.value` is in
the example handler's response). -/
def UserRole.value : UserRole → String
  | .member => "member"
  | .admin => "admin"
  | .owner => "owner"

/-- Parse a role string; strings outside the closed enumeration are
rejected (`none`), not defaulted. -/
def UserRole.fromString (r : String) : Option UserRole :=
  if r = "member" then some .member
  else if r = "admin" then some .admin
  else if r = "owner" then some .owner
  else none

/-- Modelled from the spec: one organization membership entry
(org id, name, role-within-org) of spec.md §3. -/
structure OrgMembership where
  orgId : String
  name : String
  roleInOrg : String
  deriving DecidableEq, Repr

/-- Modelled from the spec: `TokenClaims`, the decoded JWT body of
spec.md §3 — subject, email, audience, issued-at, expiry, issuer, the
nested `user_metadata.role` and `user_metadata.is_super_admin`, and the
optional top-level org claim. -/
structure TokenClaims where
  sub : String
  email : String
  aud : String
  exp : Int
  iat : Int
  iss : String
  userMetadataRole : Option String
  userMetadataIsSuperAdmin : Bool
  org : Option String
  deriving DecidableEq, Repr

/-- Modelled from the spec: `AuthUser`, the resolved identity of
spec.md §3 — id, email, role, authenticated flag, optional organization id,
super-admin flag, optional list of organization memberships. -/
structure AuthUser where
  id : String
  email : String
  role : UserRole
  is_authenticated : Bool
  organization_id : Option String
  is_super_admin : Bool
  organizations : List OrgMembership
  deriving DecidableEq, Repr

/-- Modelled from the spec: a token as seen after the external JWT
decode/verify primitive (spec.md §2, §4.1 step 1–2): either it fails to
parse (`decoded = none`, i.e. `MalformedToken`) or it carries claims,
together with the verdict of the external signature check against the
configured key. -/
structure Token where
  decoded : Option TokenClaims
  sigValid : Bool
  deriving DecidableEq, Repr

/-- Modelled from the spec: the configured expectations the standard
claims are verified against (expected audience and issuer, spec.md §4.1
step 2 and §6). -/
structure AuthConfig where
  expectedAud : String
  expectedIss : String
  deriving DecidableEq, Repr

/-- Modelled from the spec: step 3 of `get_user_from_token` (spec.md §4.1):
map verified claims to an `AuthUser` — subject → id, email → email,
`user_metadata.role` → role (defaulting to `member` when absent, rejecting
unknown strings), `user_metadata.is_super_admin` → super-admin flag,
top-level org claim → organization_id.  Runs only after verification, so
the produced user is authenticated; memberships are filled by step 4.
`roleOf` resolves the role claim: absent defaults to member, unknown
strings are rejected. -/
def roleOf (o : Option String) : Option UserRole :=
  match o with
  | none => some .member
  | some r => UserRole.fromString r

/-- Modelled from the spec: the claims-to-user mapping itself (spec.md
§4.1 step 3); `none` is the rejection of an unrecognized role string. -/
def mapClaims (c : TokenClaims) : Option AuthUser :=
  (roleOf c.userMetadataRole).map (fun role =>
    { id := c.sub, email := c.email, role := role, is_authenticated := true,
      organization_id := c.org,
      is_super_admin := c.userMetadataIsSuperAdmin, organizations := [] })

/-- Modelled from the spec: steps 1–3 of `get_user_from_token`
(spec.md §4.1): (1) the decode outcome is in `t.decoded`
(`none` = `MalformedToken`); (2) verify signature and the standard claims
expiry/audience/issuer (`InvalidSignature` / `TokenExpired`); (3) map
claims via `mapClaims`.  Expected failures return `none`, never an
exception.  `now` is the check time (seconds since epoch). -/
def resolveCore (cfg : AuthConfig) (now : Int) (t : Token) :
    Option AuthUser :=
  t.decoded.bind (fun claims =>
    if t.sigValid = false then none
    else if claims.exp ≤ now then none
    else if claims.aud ≠ cfg.expectedAud then none
    else if claims.iss ≠ cfg.expectedIss then none
    else mapClaims claims)

/-- Modelled from the spec: `get_user_from_token` of the missing
`SupabaseAuthService` (spec.md §4.1): verification and mapping
(`resolveCore`, steps 1–3) followed by step 4, the optional enrichment of
the already-verified user with organization memberships; `enrich = none`
models `EnrichmentUnavailable`, which degrades to an empty membership
list. -/
def get_user_from_token (cfg : AuthConfig) (now : Int)
    (enrich : Option (List OrgMembership)) (t : Token) : Option AuthUser :=
  (resolveCore cfg now t).map
    (fun u => { u with organizations := enrich.getD [] })

/-- A token verifies at time `now` against `cfg`: it decodes, its signature
is valid, its expiry has not passed, and audience and issuer match the
configured expectations (spec.md §4.1 steps 1–2). -/
def tokenVerifies (cfg : AuthConfig) (now : Int) (t : Token) : Prop :=
  ∃ claims, t.decoded = some claims ∧ t.sigValid = true ∧
    now < claims.exp ∧ claims.aud = cfg.expectedAud ∧
    claims.iss = cfg.expectedIss

/-- The claims carry an acceptable role: absent, or one of the closed
enumeration. -/
def roleAcceptable (c : TokenClaims) : Prop :=
  c.userMetadataRole = none ∨
    ∃ r, c.userMetadataRole = some r ∧ (UserRole.fromString r).isSome

/-- The configured expectations of the test environment: the
"authenticated" audience and the test issuer of conftest.py. -/
def sampleCfg : AuthConfig :=
  ⟨"authenticated", "https://test.supabase.co/auth/v1"⟩

/-- The claims of conftest.py's default `create_test_jwt_payload`, with
expiry one hour after the sample check time 1700000000. -/
def sampleClaims : TokenClaims :=
  ⟨"test-user-123", "test@example.com", "authenticated", 1700003600,
   1700000000, "https://test.supabase.co/auth/v1", some "member", false,
   none⟩

/-- A decoded, correctly signed sample token carrying `sampleClaims`. -/
def sampleToken : Token := ⟨some sampleClaims, true⟩

end AuthResolver

namespace ExampleApp

open AuthResolver

/-- A JSON-serializable response value, as the example handlers of
`examples/basic-nextjs-fastapi/backend/main.py` build them:
strings, booleans, integers, nullable strings (Python `None`
serializes as JSON null), arrays and objects. -/
inductive RespVal where
  | s (v : String)
  | b (v : Bool)
  | n (v : Nat)
  | optS (v : Option String)
  | arr (vs : List RespVal)
  | obj (fields : List (String × RespVal))

/-- The `HTTPException` raised by the handlers (status_code, detail). -/
structure HTTPError where
  status_code : Nat
  detail : String
  deriving DecidableEq, Repr

/-- Outcome of an example handler: a JSON response, an `HTTPException`
raised by the handler body, or an exception propagated out of the
`gittielabs_fastapi_auth` library call. -/
inductive HandlerResult where
  | ok (resp : List (String × RespVal))
  | httpError (e : HTTPError)
  | libError (e : AuthError)

/-- The calls a handler makes into the auth service, for tracing which
service functions a request reaches. -/
inductive AuthCall where
  | extractToken
  | getUser
  deriving DecidableEq, Repr

/-- The response dictionary of `get_current_user` (main.py lines 76–82):
id, email, role.value, is_authenticated, organization_id — in that order,
and nothing else. -/
def userResponse (u : AuthUser) : List (String × RespVal) :=
  [("id", .s u.id),
   ("email", .s u.email),
   ("role", .s u.role.value),
   ("is_authenticated", .b u.is_authenticated),
   ("organization_id", .optS u.organization_id)]

/-- The handler `get_current_user` of main.py (lines 50–82), with the
library's token resolution abstracted as `resolve` (the library source is
not in the tree).  `authHeader` is `request.headers.get("authorization")`;
Python's `if not auth_header` is true for a missing or empty header.  The
returned trace lists the auth-service calls the handler made, in order. -/
def get_current_user_handler (resolve : List Char → Option AuthUser)
    (authHeader : Option (List Char)) : HandlerResult × List AuthCall :=
  match authHeader with
  | none => (.httpError ⟨401, "Authorization header required"⟩, [])
  | some h =>
    if h = [] then (.httpError ⟨401, "Authorization header required"⟩, [])
    else
      match extract_token_from_header (some h) with
      | .error e => (.libError e, [.extractToken])
      | .ok token =>
        match resolve token with
        | none => (.httpError ⟨401, "Invalid or expired token"⟩,
                   [.extractToken, .getUser])
        | some user => (.ok (userResponse user), [.extractToken, .getUser])

/-- The response dictionary of `get_sample_data` (main.py lines 106–115). -/
def sampleDataResponse (u : AuthUser) : List (String × RespVal) :=
  [("message", .s ("Hello " ++ u.email ++ "! Here is your data.")),
   ("data", .arr
     [.obj [("id", .n 1), ("title", .s "Item 1"),
            ("description", .s "First item")],
      .obj [("id", .n 2), ("title", .s "Item 2"),
            ("description", .s "Second item")],
      .obj [("id", .n 3), ("title", .s "Item 3"),
            ("description", .s "Third item")]]),
   ("user_email", .s u.email),
   ("timestamp", .s "2025-10-22T12:00:00Z")]

/-- The handler `get_sample_data` of main.py (lines 86–115), embedded the
same way as `get_current_user_handler`. -/
def get_sample_data_handler (resolve : List Char → Option AuthUser)
    (authHeader : Option (List Char)) : HandlerResult × List AuthCall :=
  match authHeader with
  | none => (.httpError ⟨401, "Authorization required"⟩, [])
  | some h =>
    if h = [] then (.httpError ⟨401, "Authorization required"⟩, [])
    else
      match extract_token_from_header (some h) with
      | .error e => (.libError e, [.extractToken])
      | .ok token =>
        match resolve token with
        | none => (.httpError ⟨401, "Invalid token"⟩,
                   [.extractToken, .getUser])
        | some user => (.ok (sampleDataResponse user),
                        [.extractToken, .getUser])

end ExampleApp

namespace TestFixtures

/-- JSON values as Python's `json` module serializes them in
`packages/fastapi/tests/conftest.py`: null, booleans, integers, strings,
arrays and objects (objects keep insertion order, as Python dicts do). -/
inductive JsonValue where
  | null
  | bool (b : Bool)
  | int (n : Int)
  | str (s : String)
  | arr (xs : List JsonValue)
  | obj (fields : List (String × JsonValue))

/-- Left brace character (written via its code point). -/
def lbrace : Char := Char.ofNat 123

/-- Right brace character (written via its code point). -/
def rbrace : Char := Char.ofNat 125

/-- Lower-case hexadecimal digit for `n % 16` (code points 48–57 are the
decimal digits, 97–102 the letters a–f). -/
def hexDigit (n : Nat) : Char :=
  if n % 16 < 10 then Char.ofNat (48 + n % 16) else Char.ofNat (87 + n % 16)

/-- A two-character backslash escape. -/
def bslash (c : Char) : List Char := ['\\', c]

/-- A `\uXXXX` escape for the code unit `n % 65536`, as Python's
`json.dumps` emits with its default `ensure_ascii=True`. -/
def uEscape (n : Nat) : List Char :=
  bslash 'u' ++
    [hexDigit (n / 4096), hexDigit (n / 256), hexDigit (n / 16), hexDigit n]

/-- Escape one character inside a JSON string the way Python's
`json.dumps` does with `ensure_ascii=True`: `"` and `\` get a backslash,
the named control escapes are used for backspace, form feed, newline,
carriage return and tab, every other character outside printable ASCII
(0x20–0x7e) becomes `\uXXXX`, with a surrogate pair above 0xFFFF. -/
def escapeChar (c : Char) : List Char :=
  if c = '"' ∨ c = '\\' then bslash c
  else if c = '\x08' then bslash 'b'
  else if c = '\x0c' then bslash 'f'
  else if c = '\n' then bslash 'n'
  else if c = '\r' then bslash 'r'
  else if c = '\t' then bslash 't'
  else if c.toNat < 32 then uEscape c.toNat
  else if c.toNat ≤ 126 then [c]
  else if c.toNat < 65536 then uEscape c.toNat
  else
    uEscape (55296 + (c.toNat - 65536) / 1024) ++
      uEscape (56320 + (c.toNat - 65536) % 1024)

/-- Serialize a JSON string literal, quotes included. -/
def dumpString (s : String) : List Char :=
  '"' :: (s.toList.map escapeChar).flatten ++ ['"']

mutual

/-- Python's `json.dumps` with its default arguments (separators
`", "` and `": "`, `ensure_ascii=True`), restricted to the value shapes
the fixtures build. -/
def dumpsVal : JsonValue → List Char
  | .null => "null".toList
  | .bool true => "true".toList
  | .bool false => "false".toList
  | .int n => (toString n).toList
  | .str s => dumpString s
  | .arr xs => '[' :: dumpsArrItems xs ++ [']']
  | .obj fs => lbrace :: dumpsObjItems fs ++ [rbrace]

/-- Array elements joined by `", "`. -/
def dumpsArrItems : List JsonValue → List Char
  | [] => []
  | [x] => dumpsVal x
  | x :: y :: rest => dumpsVal x ++ ',' :: ' ' :: dumpsArrItems (y :: rest)

/-- Object entries `"key": value` joined by `", "`. -/
def dumpsObjItems : List (String × JsonValue) → List Char
  | [] => []
  | [(k, v)] => dumpString k ++ ':' :: ' ' :: dumpsVal v
  | (k, v) :: p :: rest =>
      dumpString k ++ ':' :: ' ' :: dumpsVal v ++ ',' :: ' ' ::
        dumpsObjItems (p :: rest)

end

/-- UTF-8 encoding of one character, bytes as `Nat`. -/
def utf8Encode (c : Char) : List Nat :=
  let n := c.toNat
  if n < 128 then [n]
  else if n < 2048 then [192 + n / 64, 128 + n % 64]
  else if n < 65536 then [224 + n / 4096, 128 + (n / 64) % 64, 128 + n % 64]
  else [240 + n / 262144, 128 + (n / 4096) % 64, 128 + (n / 64) % 64,
        128 + n % 64]

/-- UTF-8 encoding of a character list (`str.encode()` in Python). -/
def utf8Bytes (s : List Char) : List Nat := (s.map utf8Encode).flatten

/-- The URL-safe base64 alphabet (`base64.urlsafe_b64encode`):
`A–Z`, `a–z`, `0–9`, `-`, `_`. -/
def b64urlAlphabet : List Char :=
  (List.range 26).map (fun i => Char.ofNat (65 + i)) ++
    (List.range 26).map (fun i => Char.ofNat (97 + i)) ++
    (List.range 10).map (fun i => Char.ofNat (48 + i)) ++ ['-', '_']

/-- The alphabet character for the 6-bit value `n % 64`. -/
def b64Char (n : Nat) : Char := b64urlAlphabet.getD (n % 64) 'A'

/-- URL-safe base64 of a byte list, with `=` padding
(`base64.urlsafe_b64encode(...).decode()`). -/
def b64urlGroups : List Nat → List Char
  | [] => []
  | [a] => [b64Char (a / 4), b64Char (a % 4 * 16), '=', '=']
  | [a, b] => [b64Char (a / 4), b64Char (a % 4 * 16 + b / 16),
               b64Char (b % 16 * 4), '=']
  | a :: b :: c :: rest =>
      b64Char (a / 4) :: b64Char (a % 4 * 16 + b / 16) ::
        b64Char (b % 16 * 4 + c / 64) :: b64Char (c % 64) ::
        b64urlGroups rest

/-- Strip trailing `=` characters (`.rstrip("=")`). -/
def rstripEq (l : List Char) : List Char :=
  (l.reverse.dropWhile (fun c => c = '=')).reverse

/-- One encoded JWT segment: padding-stripped URL-safe base64 of the
UTF-8 bytes of the JSON serialization, exactly as conftest.py builds the
header and payload segments (lines 49–56). -/
def encodeSegment (v : JsonValue) : List Char :=
  rstripEq (b64urlGroups (utf8Bytes (dumpsVal v)))

/-- The fixed JWT header of conftest.py line 48. -/
def jwtHeader : JsonValue := .obj [("alg", .str "HS256"), ("typ", .str "JWT")]

/-- The fake signature of conftest.py line 59. -/
def testSignature : List Char :=
  ['t', 'e', 's', 't', '-', 's', 'i', 'g', 'n', 'a', 't', 'u', 'r', 'e']

/-- `create_test_jwt_token` of conftest.py (lines 39–61): encode the fixed
header, encode the given payload, and join them with the literal
"test-signature" by dots. -/
def create_test_jwt_token (payload : JsonValue) : List Char :=
  encodeSegment jwtHeader ++ '.' :: encodeSegment payload ++
    '.' :: testSignature

/-- `create_test_jwt_payload` of conftest.py (lines 13–36).  `iat` is
`datetime.now(...)` at call time and `exp` the caller's expiry (defaulted
in Python to now + 3600), both passed explicitly here since the clock is
external. -/
def create_test_jwt_payload (sub email role : String)
    (is_super_admin : Bool) (exp iat : Int) : JsonValue :=
  .obj [("sub", .str sub),
        ("email", .str email),
        ("aud", .str "authenticated"),
        ("exp", .int exp),
        ("iat", .int iat),
        ("iss", .str "https://test.supabase.co/auth/v1"),
        ("user_metadata", .obj [("role", .str role),
                                ("is_super_admin", .bool is_super_admin)]),
        ("app_metadata", .obj [])]

/-- Split a character list on `.`; the notion of "dot-separated parts"
used to state the three-part structure of a JWT. -/
def splitOnDot : List Char → List (List Char)
  | [] => [[]]
  | c :: rest =>
    if c = '.' then [] :: splitOnDot rest
    else
      match splitOnDot rest with
      | [] => [[c]]
      | p :: ps => (c :: p) :: ps

end TestFixtures

namespace AuthResolver

/-- C1: for every header string, `extract_token_from_header` fails with
`MissingHeader` when the header is absent or empty, fails with
`MalformedHeader` when the header does not begin with the case-sensitive
literal prefix "Bearer " (single space), and otherwise returns exactly the
substring after that prefix, unmodified. -/
theorem extract_token_from_header_spec (header : Option (List Char)) :
    ((header = none ∨ header = some []) →
      extract_token_from_header header = .error .MissingHeader) ∧
    (∀ h, header = some h → h ≠ [] → bearerPrefix.isPrefixOf h = false →
      extract_token_from_header header = .error .MalformedHeader) ∧
    (∀ h, header = some h → bearerPrefix.isPrefixOf h = true →
      ∃ rest, h = bearerPrefix ++ rest ∧
        extract_token_from_header header = .ok rest) := by
  refine ⟨?_, ?_, ?_⟩
  · rintro (rfl | rfl) <;> rfl
  · rintro h rfl hne hpre
    simp [extract_token_from_header, hne, hpre]
  · rintro h rfl hpre
    obtain ⟨rest, rfl⟩ := List.isPrefixOf_iff_prefix.mp hpre
    refine ⟨rest, rfl, ?_⟩
    have hne : bearerPrefix ++ rest ≠ [] := by simp [bearerPrefix]
    simp [extract_token_from_header, hne, hpre, List.drop_left]

/-- Concrete instances of `extract_token_from_header_spec`: a missing
header, a header without the prefix, and a well-formed bearer header. -/
theorem extract_token_from_header_spec_instance :
    extract_token_from_header none = .error .MissingHeader ∧
    extract_token_from_header (some ['x']) = .error .MalformedHeader ∧
    ∃ rest, ['B', 'e', 'a', 'r', 'e', 'r', ' ', 't'] = bearerPrefix ++ rest ∧
      extract_token_from_header
        (some ['B', 'e', 'a', 'r', 'e', 'r', ' ', 't']) = .ok rest :=
  ⟨(extract_token_from_header_spec none).1 (Or.inl rfl),
   (extract_token_from_header_spec (some ['x'])).2.1 ['x'] rfl
     (by decide) (by decide),
   (extract_token_from_header_spec
     (some ['B', 'e', 'a', 'r', 'e', 'r', ' ', 't'])).2.2 _ rfl (by decide)⟩

/-- C3: for every token whose expiry claim is in the past at check time,
`get_user_from_token` returns `none` (not an exception), whatever the
signature verdict is. -/
theorem get_user_from_token_expired (cfg : AuthConfig) (now : Int)
    (enrich : Option (List OrgMembership)) (t : Token) (claims : TokenClaims)
    (hdec : t.decoded = some claims) (hexp : claims.exp < now) :
    get_user_from_token cfg now enrich t = none := by
  have hcore : resolveCore cfg now t = none := by
    unfold resolveCore
    cases hsv : t.sigValid <;> simp [hdec, hsv, le_of_lt hexp]
  simp [get_user_from_token, hcore]

/-- Concrete instance of `get_user_from_token_expired`: the spec's
scenario of a token one hour past its expiry, with a valid signature. -/
theorem get_user_from_token_expired_instance :
    get_user_from_token ⟨"authenticated", "https://test.supabase.co/auth/v1"⟩
      1700000000 none
      ⟨some ⟨"test-user-123", "test@example.com", "authenticated",
             1700000000 - 3600, 1700000000 - 7200,
             "https://test.supabase.co/auth/v1", some "member", false, none⟩,
       true⟩ = none :=
  get_user_from_token_expired _ _ _ _ _ rfl (by decide)

end AuthResolver

namespace AuthResolver

/-- An absent role claim resolves to the member default. -/
theorem roleOf_none : roleOf none = some .member := rfl

/-- A present role claim resolves through the closed enumeration. -/
theorem roleOf_some (r : String) :
    roleOf (some r) = UserRole.fromString r := rfl

/-- Any user produced by the claims mapping is marked authenticated. -/
theorem mapClaims_isAuth (c : TokenClaims) (u : AuthUser)
    (h : mapClaims c = some u) : u.is_authenticated = true := by
  unfold mapClaims at h
  rcases hr : roleOf c.userMetadataRole with _ | role
  · rw [hr] at h
    simp at h
  · rw [hr, Option.map_some'] at h
    cases h
    rfl

/-- An acceptable role makes the claims mapping succeed, with the subject
as id, the authenticated flag set, and no memberships yet. -/
theorem mapClaims_of_roleAcceptable (c : TokenClaims)
    (h : roleAcceptable c) :
    ∃ u0, mapClaims c = some u0 ∧ u0.id = c.sub ∧
      u0.is_authenticated = true ∧ u0.organizations = [] := by
  obtain ⟨role, hrole⟩ : ∃ role, roleOf c.userMetadataRole = some role := by
    rcases h with hnone | ⟨r, hr, hsome⟩
    · exact ⟨.member, by rw [hnone, roleOf_none]⟩
    · obtain ⟨role, hq⟩ := Option.isSome_iff_exists.mp hsome
      exact ⟨role, by rw [hr, roleOf_some, hq]⟩
  refine ⟨{ id := c.sub, email := c.email, role := role,
            is_authenticated := true, organization_id := c.org,
            is_super_admin := c.userMetadataIsSuperAdmin,
            organizations := [] }, ?_, rfl, rfl, rfl⟩
  unfold mapClaims
  rw [hrole, Option.map_some']

/-- A token satisfying all the verification hypotheses makes the core
resolution succeed on the mapped user. -/
theorem resolveCore_of_verified (cfg : AuthConfig) (now : Int)
    (t : Token) (claims : TokenClaims) (u0 : AuthUser)
    (hdec : t.decoded = some claims) (hsig : t.sigValid = true)
    (hexp : now < claims.exp) (haud : claims.aud = cfg.expectedAud)
    (hiss : claims.iss = cfg.expectedIss)
    (hmap : mapClaims claims = some u0) :
    resolveCore cfg now t = some u0 := by
  unfold resolveCore
  simp [hdec, hsig, not_le.mpr hexp, haud, hiss, hmap]

/-- C2: for every valid, unexpired, correctly signed token,
`get_user_from_token` returns a non-null `AuthUser` whose id equals the
token's subject claim. -/
theorem get_user_from_token_valid (cfg : AuthConfig) (now : Int)
    (enrich : Option (List OrgMembership)) (t : Token) (claims : TokenClaims)
    (hdec : t.decoded = some claims) (hsig : t.sigValid = true)
    (hexp : now < claims.exp) (haud : claims.aud = cfg.expectedAud)
    (hiss : claims.iss = cfg.expectedIss) (hrole : roleAcceptable claims) :
    ∃ u, get_user_from_token cfg now enrich t = some u ∧
      u.id = claims.sub := by
  obtain ⟨u0, hmap, hid, _, _⟩ := mapClaims_of_roleAcceptable claims hrole
  refine ⟨{ u0 with organizations := enrich.getD [] }, ?_, hid⟩
  simp [get_user_from_token,
        resolveCore_of_verified cfg now t claims u0 hdec hsig hexp haud
          hiss hmap]

/-- Concrete instance of `get_user_from_token_valid`: the test payload of
conftest.py resolved one hour before expiry yields the test user. -/
theorem get_user_from_token_valid_instance :
    ∃ u, get_user_from_token sampleCfg 1700000000 (some []) sampleToken =
      some u ∧ u.id = sampleClaims.sub :=
  get_user_from_token_valid sampleCfg 1700000000 (some []) sampleToken
    sampleClaims rfl rfl (by decide) rfl rfl (Or.inr ⟨"member", rfl, rfl⟩)

end AuthResolver

namespace AuthResolver

/-- C4: the claims-to-user mapping sends subject to id, email to email and
`user_metadata.role` to role — defaulting to member when the role claim is
absent and rejecting (not defaulting) any role string outside the closed
enumeration {member, admin, owner} — and carries
`user_metadata.is_super_admin` and the top-level org claim. -/
theorem mapClaims_spec (c : TokenClaims) :
    (c.userMetadataRole = none →
      mapClaims c = some ⟨c.sub, c.email, .member, true, c.org,
        c.userMetadataIsSuperAdmin, []⟩) ∧
    (∀ r role, c.userMetadataRole = some r →
      UserRole.fromString r = some role →
      mapClaims c = some ⟨c.sub, c.email, role, true, c.org,
        c.userMetadataIsSuperAdmin, []⟩) ∧
    (∀ r, c.userMetadataRole = some r → UserRole.fromString r = none →
      mapClaims c = none) ∧
    (∀ r : String, UserRole.fromString r = none ↔
      r ≠ "member" ∧ r ≠ "admin" ∧ r ≠ "owner") := by
  refine ⟨?_, ?_, ?_, ?_⟩
  · intro h
    unfold mapClaims
    rw [h, roleOf_none, Option.map_some']
  · intro r role hr hrole
    unfold mapClaims
    rw [hr, roleOf_some, hrole, Option.map_some']
  · intro r hr hrole
    unfold mapClaims
    rw [hr, roleOf_some, hrole, Option.map_none']
  · intro r
    unfold UserRole.fromString
    split_ifs with h1 h2 h3
    · simp [h1]
    · simp [h1, h2]
    · simp [h1, h2, h3]
    · simp [h1, h2, h3]

/-- Concrete instances of `mapClaims_spec`: an admin role maps to the
admin enumeration value, and an out-of-enumeration role string is
rejected. -/
theorem mapClaims_spec_instance :
    mapClaims ⟨"admin-user-456", "admin@example.com", "authenticated",
      1700003600, 1700000000, "https://test.supabase.co/auth/v1",
      some "admin", false, none⟩ =
      some ⟨"admin-user-456", "admin@example.com", .admin, true, none,
            false, []⟩ ∧
    mapClaims ⟨"u", "u@example.com", "authenticated", 1700003600,
      1700000000, "https://test.supabase.co/auth/v1",
      some "superuser", false, none⟩ = none :=
  ⟨(mapClaims_spec _).2.1 "admin" .admin rfl (by decide),
   (mapClaims_spec _).2.2.1 "superuser" rfl (by decide)⟩

/-- C5: the resolver never builds an `AuthUser` violating the
authenticated-iff-verified biconditional: every produced user carries
`is_authenticated = true` and its token verified (signature valid, expiry
not passed, audience and issuer as configured), and when the token does
not verify no user is produced at all. -/
theorem get_user_is_authenticated_invariant (cfg : AuthConfig) (now : Int)
    (enrich : Option (List OrgMembership)) (t : Token) :
    (∀ u, get_user_from_token cfg now enrich t = some u →
      u.is_authenticated = true ∧ tokenVerifies cfg now t) ∧
    (¬ tokenVerifies cfg now t →
      get_user_from_token cfg now enrich t = none) := by
  have main : ∀ u, get_user_from_token cfg now enrich t = some u →
      u.is_authenticated = true ∧ tokenVerifies cfg now t := by
    intro u hu
    unfold get_user_from_token at hu
    rcases hc : resolveCore cfg now t with _ | u0
    · rw [hc] at hu
      simp at hu
    · rw [hc, Option.map_some'] at hu
      cases hu
      unfold resolveCore at hc
      rcases hdec : t.decoded with _ | claims
      · rw [hdec] at hc
        simp at hc
      · rw [hdec, Option.some_bind] at hc
        split_ifs at hc with h1 h2 h3 h4
        have hsig : t.sigValid = true := by
          cases hb : t.sigValid
          · exact absurd hb h1
          · rfl
        refine ⟨mapClaims_isAuth claims u0 hc, claims, hdec, hsig,
                not_le.mp h2, not_not.mp h3, not_not.mp h4⟩
  refine ⟨main, fun hnv => ?_⟩
  rcases hres : get_user_from_token cfg now enrich t with _ | u
  · rfl
  · exact absurd (main u hres).2 hnv

/-- Concrete instance of `get_user_is_authenticated_invariant`: the
resolved sample user is authenticated and its token verifies, and the
same token with a broken signature produces no user. -/
theorem get_user_is_authenticated_invariant_instance :
    ((⟨"test-user-123", "test@example.com", .member, true, none, false,
       []⟩ : AuthUser).is_authenticated = true ∧
      tokenVerifies sampleCfg 1700000000 sampleToken) ∧
    get_user_from_token sampleCfg 1700000000 (some [])
      ⟨some sampleClaims, false⟩ = none :=
  ⟨(get_user_is_authenticated_invariant sampleCfg 1700000000 (some [])
      sampleToken).1
      ⟨"test-user-123", "test@example.com", .member, true, none, false, []⟩
      rfl,
   (get_user_is_authenticated_invariant sampleCfg 1700000000 (some [])
      ⟨some sampleClaims, false⟩).2
      (by rintro ⟨claims, hdec, hsig, -⟩; cases hsig)⟩

end AuthResolver

namespace AuthResolver

/-- C7: resolution is deterministic and idempotent — two resolutions of
the same token at the same check time, even with different enrichment
outcomes, fail together or both produce users agreeing on every field
except the enrichment-supplied membership list. -/
theorem get_user_from_token_deterministic (cfg : AuthConfig) (now : Int)
    (e1 e2 : Option (List OrgMembership)) (t : Token) :
    (get_user_from_token cfg now e1 t = none ↔
      get_user_from_token cfg now e2 t = none) ∧
    (∀ u1 u2, get_user_from_token cfg now e1 t = some u1 →
      get_user_from_token cfg now e2 t = some u2 →
      u1.id = u2.id ∧ u1.email = u2.email ∧ u1.role = u2.role ∧
        u1.is_authenticated = u2.is_authenticated ∧
        u1.organization_id = u2.organization_id ∧
        u1.is_super_admin = u2.is_super_admin) := by
  rcases hc : resolveCore cfg now t with _ | u0
  · refine ⟨by simp [get_user_from_token, hc], ?_⟩
    intro u1 u2 h1 h2
    simp [get_user_from_token, hc] at h1
  · refine ⟨by simp [get_user_from_token, hc], ?_⟩
    intro u1 u2 h1 h2
    simp only [get_user_from_token, hc, Option.map_some',
      Option.some.injEq] at h1 h2
    subst h1
    subst h2
    exact ⟨rfl, rfl, rfl, rfl, rfl, rfl⟩

/-- Concrete instance of `get_user_from_token_deterministic`: resolving
the sample token with a successful enrichment and with a failed one
yields users agreeing on every field but the membership list. -/
theorem get_user_from_token_deterministic_instance :
    (⟨"test-user-123", "test@example.com", .member, true, none, false,
       [⟨"org-456", "Test Org", "member"⟩]⟩ : AuthUser).id =
      (⟨"test-user-123", "test@example.com", .member, true, none, false,
        []⟩ : AuthUser).id ∧
    (⟨"test-user-123", "test@example.com", .member, true, none, false,
       [⟨"org-456", "Test Org", "member"⟩]⟩ : AuthUser).email =
      (⟨"test-user-123", "test@example.com", .member, true, none, false,
        []⟩ : AuthUser).email ∧
    (⟨"test-user-123", "test@example.com", .member, true, none, false,
       [⟨"org-456", "Test Org", "member"⟩]⟩ : AuthUser).role =
      (⟨"test-user-123", "test@example.com", .member, true, none, false,
        []⟩ : AuthUser).role ∧
    (⟨"test-user-123", "test@example.com", .member, true, none, false,
       [⟨"org-456", "Test Org", "member"⟩]⟩ : AuthUser).is_authenticated =
      (⟨"test-user-123", "test@example.com", .member, true, none, false,
        []⟩ : AuthUser).is_authenticated ∧
    (⟨"test-user-123", "test@example.com", .member, true, none, false,
       [⟨"org-456", "Test Org", "member"⟩]⟩ : AuthUser).organization_id =
      (⟨"test-user-123", "test@example.com", .member, true, none, false,
        []⟩ : AuthUser).organization_id ∧
    (⟨"test-user-123", "test@example.com", .member, true, none, false,
       [⟨"org-456", "Test Org", "member"⟩]⟩ : AuthUser).is_super_admin =
      (⟨"test-user-123", "test@example.com", .member, true, none, false,
        []⟩ : AuthUser).is_super_admin :=
  (get_user_from_token_deterministic sampleCfg 1700000000
    (some [⟨"org-456", "Test Org", "member"⟩]) none sampleToken).2
    ⟨"test-user-123", "test@example.com", .member, true, none, false,
     [⟨"org-456", "Test Org", "member"⟩]⟩
    ⟨"test-user-123", "test@example.com", .member, true, none, false, []⟩
    (by decide) (by decide)

/-- C8: once verification has succeeded, a failed enrichment lookup does
not fail the resolution — `get_user_from_token` still returns the
verified, authenticated user, with an empty membership list. -/
theorem get_user_from_token_enrichment_failure (cfg : AuthConfig)
    (now : Int) (t : Token) (claims : TokenClaims)
    (hdec : t.decoded = some claims) (hsig : t.sigValid = true)
    (hexp : now < claims.exp) (haud : claims.aud = cfg.expectedAud)
    (hiss : claims.iss = cfg.expectedIss) (hrole : roleAcceptable claims) :
    ∃ u, get_user_from_token cfg now none t = some u ∧
      u.organizations = [] ∧ u.id = claims.sub ∧
      u.is_authenticated = true := by
  obtain ⟨u0, hmap, hid, hauth, -⟩ :=
    mapClaims_of_roleAcceptable claims hrole
  refine ⟨{ u0 with organizations := [] }, ?_, rfl, hid, hauth⟩
  simp [get_user_from_token,
    resolveCore_of_verified cfg now t claims u0 hdec hsig hexp haud hiss
      hmap]

/-- Concrete instance of `get_user_from_token_enrichment_failure`: the
sample token resolved while the enrichment lookup fails. -/
theorem get_user_from_token_enrichment_failure_instance :
    ∃ u, get_user_from_token sampleCfg 1700000000 none sampleToken =
      some u ∧ u.organizations = [] ∧ u.id = sampleClaims.sub ∧
      u.is_authenticated = true :=
  get_user_from_token_enrichment_failure sampleCfg 1700000000 sampleToken
    sampleClaims rfl rfl (by decide) rfl rfl (Or.inr ⟨"member", rfl, rfl⟩)

end AuthResolver

namespace ExampleApp

open AuthResolver

/-- C9: when the authorization header is absent, both example handlers
raise HTTPException 401 immediately, with an empty auth-service call
trace — `extract_token_from_header` and `get_user_from_token` are never
reached. -/
theorem missing_header_401_before_auth_calls
    (resolve : List Char → Option AuthUser) :
    get_current_user_handler resolve none =
      (.httpError ⟨401, "Authorization header required"⟩, []) ∧
    get_sample_data_handler resolve none =
      (.httpError ⟨401, "Authorization required"⟩, []) :=
  ⟨rfl, rfl⟩

/-- C6: whenever `get_current_user` answers with a user response, the
serialized dictionary has exactly the fields id, email, role,
is_authenticated, organization_id, in that order. -/
theorem get_current_user_response_fields
    (resolve : List Char → Option AuthUser)
    (authHeader : Option (List Char)) (resp : List (String × RespVal))
    (trace : List AuthCall)
    (h : get_current_user_handler resolve authHeader = (.ok resp, trace)) :
    resp.map Prod.fst =
      ["id", "email", "role", "is_authenticated", "organization_id"] := by
  rcases authHeader with _ | hd
  · simp [get_current_user_handler] at h
  · simp only [get_current_user_handler] at h
    split_ifs at h with he
    · simp at h
    · rcases hex : extract_token_from_header (some hd) with e | tok
      · simp only [hex] at h
        simp at h
      · simp only [hex] at h
        rcases hres : resolve tok with _ | user
        · simp only [hres] at h
          simp at h
        · simp only [hres] at h
          simp only [Prod.mk.injEq, HandlerResult.ok.injEq] at h
          obtain ⟨h1, -⟩ := h
          subst h1
          simp [userResponse]

/-- Concrete instance of `get_current_user_response_fields`: a request
with a bearer header resolving to the test admin user. -/
theorem get_current_user_response_fields_instance :
    (userResponse ⟨"admin-user-123", "admin@example.com", .admin, true,
      some "org-456", false, []⟩).map Prod.fst =
      ["id", "email", "role", "is_authenticated", "organization_id"] :=
  get_current_user_response_fields
    (fun _ => some ⟨"admin-user-123", "admin@example.com", .admin, true,
      some "org-456", false, []⟩)
    (some ['B', 'e', 'a', 'r', 'e', 'r', ' ', 't'])
    (userResponse ⟨"admin-user-123", "admin@example.com", .admin, true,
      some "org-456", false, []⟩)
    [.extractToken, .getUser] rfl

end ExampleApp

namespace TestFixtures

/-- Base64 alphabet characters are never the dot separator. -/
theorem b64Char_ne_dot (n : Nat) : b64Char n ≠ '.' := by
  have hb : ∀ k, k < 64 → b64urlAlphabet.getD k 'A' ≠ '.' := by decide
  unfold b64Char
  exact hb (n % 64) (Nat.mod_lt _ (by decide))

/-- No character of a padded base64url encoding is a dot. -/
theorem b64urlGroups_ne_dot : ∀ (bytes : List Nat),
    ∀ c ∈ b64urlGroups bytes, c ≠ '.'
  | [] => by
      intro c hc
      simp [b64urlGroups] at hc
  | [a] => by
      intro c hc
      simp only [b64urlGroups, List.mem_cons, List.not_mem_nil,
        or_false] at hc
      rcases hc with rfl | rfl | rfl | rfl
      · exact b64Char_ne_dot _
      · exact b64Char_ne_dot _
      · decide
      · decide
  | [a, b] => by
      intro c hc
      simp only [b64urlGroups, List.mem_cons, List.not_mem_nil,
        or_false] at hc
      rcases hc with rfl | rfl | rfl | rfl
      · exact b64Char_ne_dot _
      · exact b64Char_ne_dot _
      · exact b64Char_ne_dot _
      · decide
  | a :: b :: c' :: rest => by
      intro c hc
      simp only [b64urlGroups, List.mem_cons] at hc
      rcases hc with rfl | rfl | rfl | rfl | hmem
      · exact b64Char_ne_dot _
      · exact b64Char_ne_dot _
      · exact b64Char_ne_dot _
      · exact b64Char_ne_dot _
      · exact b64urlGroups_ne_dot rest c hmem

/-- Stripping trailing padding keeps only characters of the original. -/
theorem rstripEq_subset (l : List Char) : ∀ c ∈ rstripEq l, c ∈ l := by
  intro c hc
  unfold rstripEq at hc
  rw [List.mem_reverse] at hc
  have h2 := (List.dropWhile_sublist _).subset hc
  exact List.mem_reverse.mp h2

/-- A dot-free character list is a single dot-separated part. -/
theorem splitOnDot_no_dot (l : List Char) (h : ∀ c ∈ l, c ≠ '.') :
    splitOnDot l = [l] := by
  induction l with
  | nil => rfl
  | cons c rest ih =>
    have hc : c ≠ '.' := h c (List.mem_cons_self c rest)
    have hrest := ih (fun x hx => h x (List.mem_cons_of_mem c hx))
    unfold splitOnDot
    rw [if_neg hc, hrest]

/-- Splitting after a dot-free part peels that part off. -/
theorem splitOnDot_append (a r : List Char) (h : ∀ c ∈ a, c ≠ '.') :
    splitOnDot (a ++ '.' :: r) = a :: splitOnDot r := by
  induction a with
  | nil =>
    show splitOnDot ('.' :: r) = [] :: splitOnDot r
    simp only [splitOnDot]
    simp
  | cons c a' ih =>
    have hc : c ≠ '.' := h c (List.mem_cons_self c a')
    have ih' := ih (fun x hx => h x (List.mem_cons_of_mem c hx))
    show splitOnDot (c :: (a' ++ '.' :: r)) = (c :: a') :: splitOnDot r
    simp only [splitOnDot]
    rw [if_neg hc, ih']

/-- C10: for every payload, `create_test_jwt_token` is exactly three
dot-separated parts — the padding-stripped base64url of the JSON header,
the padding-stripped base64url of the JSON payload, and the fixed literal
"test-signature" — the header part being the encoding of
`{"alg": "HS256", "typ": "JWT"}` as Python serializes it. -/
theorem create_test_jwt_token_structure (payload : JsonValue) :
    splitOnDot (create_test_jwt_token payload) =
      [rstripEq (b64urlGroups (utf8Bytes (dumpsVal jwtHeader))),
       rstripEq (b64urlGroups (utf8Bytes (dumpsVal payload))),
       testSignature] ∧
    rstripEq (b64urlGroups (utf8Bytes (dumpsVal jwtHeader))) =
      "eyJhbGciOiAiSFMyNTYiLCAidHlwIjogIkpXVCJ9".toList ∧
    testSignature = "test-signature".toList := by
  refine ⟨?_, by decide, by decide⟩
  have h1 : ∀ c ∈ encodeSegment jwtHeader, c ≠ '.' :=
    fun c hc => b64urlGroups_ne_dot _ c (rstripEq_subset _ c hc)
  have h2 : ∀ c ∈ encodeSegment payload, c ≠ '.' :=
    fun c hc => b64urlGroups_ne_dot _ c (rstripEq_subset _ c hc)
  have h3 : ∀ c ∈ testSignature, c ≠ '.' := by decide
  unfold create_test_jwt_token
  rw [List.append_assoc, List.cons_append,
      splitOnDot_append _ _ h1, splitOnDot_append _ _ h2,
      splitOnDot_no_dot _ h3]
  rfl

end TestFixtures
